import Mathlib

/-!
Verification development for the cache/fetch/search core of the MVG
disruption server (mvg_mcp_server.py).  The Python code is shallowly
embedded: JSON values become the inductive type Json, Python dicts become
association lists in insertion order, datetimes become Nat tick counts
(seconds), and code that can raise returns Except.  Each definition below
mirrors one Python function of the source.
-/

/-- JSON-like values as produced by deserialising the upstream body.
Numbers are modelled as integers (the fields the core reads are
millisecond epochs). -/
inductive Json where
  | null : Json
  | bool : Bool → Json
  | num  : Int → Json
  | str  : String → Json
  | arr  : List Json → Json
  | obj  : List (String × Json) → Json

/-- Python dict lookup (d[k] / k in d) over the insertion-ordered pairs. -/
def lookupKey : List (String × Json) → String → Option Json
  | [], _ => none
  | (k', v) :: rest, k => if k' = k then some v else lookupKey rest k

/-- Python dict assignment d[k] = v: replace in place if the key exists,
append otherwise. -/
def setKey : List (String × Json) → String → Json → List (String × Json)
  | [], k, v => [(k, v)]
  | (k', v') :: rest, k, v =>
      if k' = k then (k, v) :: rest else (k', v') :: setKey rest k v

/-- Python list-prefix test used to implement substring containment. -/
def charsPref : List Char → List Char → Bool
  | [], _ => true
  | _ :: _, [] => false
  | a :: as, b :: bs => a = b && charsPref as bs

/-- Substring containment on character lists (needle occurs contiguously). -/
def charsSub : List Char → List Char → Bool
  | n, [] => n.isEmpty
  | n, b :: bs => charsPref n (b :: bs) || charsSub n bs

/-- Python membership test sub in s on strings. -/
def pyIn (needle hay : String) : Bool :=
  charsSub needle.toList hay.toList

/-- Model of CachedData: the stored incident list with its fetch time and
derived expiry time (Nat seconds). -/
structure CachedData where
  data : List Json
  timestamp : Nat
  expires_at : Nat

/-- Model of MVGCache: a fixed duration (seconds) and at most one entry. -/
structure MVGCache where
  cache_duration : Nat
  cached : Option CachedData

/-- MVGCache.__init__(cache_duration_minutes): empty cache, duration fixed
at construction (timedelta(minutes=m) is 60*m seconds). -/
def MVGCache.init (minutes : Nat) : MVGCache :=
  { cache_duration := 60 * minutes, cached := none }

/-- MVGCache.is_expired: true when nothing is stored or now >= expires_at. -/
def MVGCache.is_expired (c : MVGCache) (now : Nat) : Bool :=
  match c.cached with
  | none => true
  | some cd => decide (cd.expires_at ≤ now)

/-- MVGCache.get: the stored data unless expired (None models "no data"). -/
def MVGCache.get (c : MVGCache) (now : Nat) : Option (List Json) :=
  if c.is_expired now then none
  else
    match c.cached with
    | some cd => some cd.data
    | none => none

/-- MVGCache.set: unconditionally replace the entry, deriving expires_at. -/
def MVGCache.set (c : MVGCache) (data : List Json) (now : Nat) : MVGCache :=
  { c with cached := some { data := data, timestamp := now, expires_at := now + c.cache_duration } }

/-- MVGCache.get_cache_info: the status mapping.  In the empty state the
Python code returns only status and cached_items; otherwise all five
fields.  Timestamps are reported under the model's Nat clock. -/
def MVGCache.get_cache_info (c : MVGCache) (now : Nat) : List (String × Json) :=
  match c.cached with
  | none => [("status", Json.str "empty"), ("cached_items", Json.num 0)]
  | some cd =>
      [("status", Json.str (if c.is_expired now then "expired" else "valid")),
       ("cached_items", Json.num (Int.ofNat cd.data.length)),
       ("cached_at", Json.num (Int.ofNat cd.timestamp)),
       ("expires_at", Json.num (Int.ofNat cd.expires_at)),
       ("cache_duration_minutes", Json.num (Int.ofNat (c.cache_duration / 60)))]

/-- get_incidents(force_refresh): serve from cache unless forced or stale;
otherwise consume the outcome of one Fetcher.fetch_incidents() call
(fetchResult), store it on success, and propagate its error on failure.
Returns the call result, the cache afterwards, and how many upstream
fetches were performed. -/
def get_incidents (force_refresh : Bool) (c : MVGCache) (now : Nat)
    (fetchResult : Except String (List Json)) :
    Except String (List Json) × MVGCache × Nat :=
  match (if force_refresh then none else c.get now) with
  | some cached => (Except.ok cached, c, 0)
  | none =>
      match fetchResult with
      | Except.error e => (Except.error e, c, 1)
      | Except.ok xs => (Except.ok xs, c.set xs now, 1)

/-- Inner loop of MVGDataFetcher.filter_incidents over the candidate
container keys: the first listed key whose stored value is a sequence. -/
def findContainer : List String → List (String × Json) → Option (List Json)
  | [], _ => none
  | k :: ks, kvs =>
      match lookupKey kvs k with
      | some (Json.arr xs) => some xs
      | _ => findContainer ks kvs

/-- Shape dispatch of filter_incidents: bare list, keyed mapping (for-else
falling back to a one-element list when a type field is present), else
empty. -/
def messagesOf : Json → List Json
  | Json.arr xs => xs
  | Json.obj kvs =>
      match findContainer ["messages", "data", "items", "results"] kvs with
      | some xs => xs
      | none => if (lookupKey kvs "type").isSome then [Json.obj kvs] else []
  | _ => []

/-- Retention test of filter_incidents: a mapping whose type field holds
exactly the string INCIDENT (Python == is false across types). -/
def isIncidentMsg : Json → Bool
  | Json.obj kvs =>
      match lookupKey kvs "type" with
      | some (Json.str s) => s = "INCIDENT"
      | _ => false
  | _ => false

/-- MVGDataFetcher.filter_incidents: keep only INCIDENT records from the
candidate message list. -/
def filter_incidents (data : Json) : List Json :=
  (messagesOf data).filter isIncidentMsg

/-- Spec-side probe of one candidate key: its sequence value when the key
is present with a sequence, nothing otherwise. -/
def probeKey (kvs : List (String × Json)) (k : String) : Option (List Json) :=
  match lookupKey kvs k with
  | some (Json.arr xs) => some xs
  | _ => none

/-- Spec-side restatement of the container probe, written from the spec's
words: probe messages, data, items, results in that priority order; the
first key present whose value is a sequence wins. -/
def specContainer (kvs : List (String × Json)) : Option (List Json) :=
  List.findSome? (probeKey kvs) ["messages", "data", "items", "results"]

/-- Spec-side candidate message list, written from the spec's words: a bare
sequence is used directly; a mapping yields the probed container, else a
one-element list when it bears a type field; anything else yields the
empty list. -/
def specCandidates : Json → List Json
  | Json.arr xs => xs
  | Json.obj kvs =>
      match specContainer kvs with
      | some xs => xs
      | none =>
          match lookupKey kvs "type" with
          | some _ => [Json.obj kvs]
          | none => []
  | _ => []

/-- Python isinstance(x, int): true for ints and for bools (bool is an int
subclass). -/
def pyIsInt : Json → Bool
  | Json.num _ => true
  | Json.bool _ => true
  | _ => false

/-- Integer value of a Python int-like value (True is 1, False is 0). -/
def pyIntVal : Json → Int
  | Json.num n => n
  | Json.bool b => if b then 1 else 0
  | _ => 0

/-- MVGDataFetcher.format_timestamp: the epoch-to-local-datetime
conversion is environment dependent, so its outcome is abstracted as
conv, with three cases mirroring the source's try/except over
(ValueError, OSError): ok (some s) is a successful conversion, ok none a
failure with a caught ValueError or OSError — the code then falls back
to str(t) — and error e an exception outside the except clause, such as
the OverflowError a huge epoch raises at the float division or inside
fromtimestamp, which propagates uncaught. -/
def format_timestamp (conv : Int → Except String (Option String)) (t : Int) :
    Except String String :=
  match conv t with
  | Except.error e => Except.error e
  | Except.ok (some s) => Except.ok s
  | Except.ok none => Except.ok (toString t)

/-- One conditional block of enhance_incident_data: when field k is present
and int-typed, write the literal readable key kr with the formatted
timestamp (the source writes keys such as publication_readable); an
uncaught conversion exception propagates. -/
def enhanceField (conv : Int → Except String (Option String)) (k kr : String)
    (kvs : List (String × Json)) : Except String (List (String × Json)) :=
  match lookupKey kvs k with
  | some v =>
      if pyIsInt v then
        match format_timestamp conv (pyIntVal v) with
        | Except.error e => Except.error e
        | Except.ok s => Except.ok (setKey kvs kr (Json.str s))
      else Except.ok kvs
  | none => Except.ok kvs

/-- MVGDataFetcher.enhance_incident_data: copy the record, then process
publication, validFrom, validTo in that order, aborting on an uncaught
conversion exception. -/
def enhance_incident_data (conv : Int → Except String (Option String))
    (incident : List (String × Json)) : Except String (List (String × Json)) :=
  match enhanceField conv "publication" "publication_readable" incident with
  | Except.error e => Except.error e
  | Except.ok k1 =>
      match enhanceField conv "validFrom" "validFrom_readable" k1 with
      | Except.error e => Except.error e
      | Except.ok k2 => enhanceField conv "validTo" "validTo_readable" k2

/-- Python str.lower(): case-fold every character (ASCII model). -/
def pyLower (s : String) : String := String.mk (s.data.map Char.toLower)

/-- Python str.upper(): case-raise every character (ASCII model). -/
def pyUpper (s : String) : String := String.mk (s.data.map Char.toUpper)

/-- Python incident.get(k, "").lower() read: missing keys default to the
empty string; a present non-string value raises AttributeError at the
.lower() call. -/
def getStrD (kvs : List (String × Json)) (k : String) : Except String String :=
  match lookupKey kvs k with
  | none => Except.ok ""
  | some (Json.str s) => Except.ok s
  | some _ => Except.error "AttributeError"

/-- Python iteration over incident["lines"]: lists yield their elements,
strings yield one-character strings, dicts yield their keys, and other
values raise TypeError. -/
def pyIter : Json → Except String (List Json)
  | Json.arr xs => Except.ok xs
  | Json.str s => Except.ok (s.toList.map (fun c => Json.str (String.mk [c])))
  | Json.obj kvs => Except.ok (kvs.map (fun kv => Json.str kv.fst))
  | _ => Except.error "TypeError"

/-- Label-scanning loop shared by the query match (f = toLower) and the
line filter (f = toUpper): dict entries with a label are tested for
substring containment after case folding, the loop breaks at the first
hit, and a non-string label raises AttributeError. -/
def labelLoop (f : String → String) (needle : String) : List Json → Except String Bool
  | [] => Except.ok false
  | Json.obj kvs :: ls =>
      match lookupKey kvs "label" with
      | some (Json.str s) =>
          if pyIn needle (f s) then Except.ok true else labelLoop f needle ls
      | some _ => Except.error "AttributeError"
      | none => labelLoop f needle ls
  | _ :: ls => labelLoop f needle ls

/-- The line_match block of the search handler: false when the incident
has no lines field, else scan the iterated lines for the query. -/
def lineMatchOf (q : String) (kvs : List (String × Json)) : Except String Bool :=
  match lookupKey kvs "lines" with
  | none => Except.ok false
  | some v =>
      match pyIter v with
      | Except.error e => Except.error e
      | Except.ok ls => labelLoop pyLower q ls

/-- The line_filter_match block: vacuously true when the (already
upper-cased) filter is empty, else false without a lines field, else scan
the lines for the filter. -/
def lineFilterOf (lf : String) (kvs : List (String × Json)) : Except String Bool :=
  if lf = "" then Except.ok true
  else
    match lookupKey kvs "lines" with
    | none => Except.ok false
    | some v =>
        match pyIter v with
        | Except.error e => Except.error e
        | Except.ok ls => labelLoop pyUpper lf ls

/-- Per-incident body of the search loop, in the source's evaluation
order: title match, description match, line match, line filter, then the
combined condition.  A non-dict incident raises at the .get call. -/
def searchOne (q lf : String) (inc : Json) : Except String Bool :=
  match inc with
  | Json.obj kvs =>
      match getStrD kvs "title" with
      | Except.error e => Except.error e
      | Except.ok t =>
          match getStrD kvs "description" with
          | Except.error e => Except.error e
          | Except.ok d =>
              match lineMatchOf q kvs with
              | Except.error e => Except.error e
              | Except.ok lm =>
                  match lineFilterOf lf kvs with
                  | Except.error e => Except.error e
                  | Except.ok lfm =>
                      Except.ok ((pyIn q (pyLower t) || pyIn q (pyLower d) || lm) && lfm)
  | _ => Except.error "AttributeError"

/-- The search handler's for-loop: collect the incidents whose condition
holds, aborting the whole call on the first raised error. -/
def searchLoop (q lf : String) : List Json → Except String (List Json)
  | [] => Except.ok []
  | inc :: rest =>
      match searchOne q lf inc with
      | Except.error e => Except.error e
      | Except.ok b =>
          match searchLoop q lf rest with
          | Except.error e => Except.error e
          | Except.ok tail => Except.ok (if b then inc :: tail else tail)

/-- Arguments of the search_incidents tool call: each of query and line is
present (a string, as typed by the input schema) or absent. -/
structure SearchArgs where
  query : Option String
  line : Option String

/-- Result object built by the search_incidents branch; query and
line_filter echo arguments.get and are None when absent. -/
structure SearchResult where
  incidents : List Json
  count : Nat
  query : Option String
  line_filter : Option String
  total_incidents : Nat

/-- The search_incidents branch of handle_call_tool, operating over the
incident list served by get_incidents: an absent query or line defaults
to the empty string before case folding; the filtered list, counts and
echoed arguments form the result. -/
def search_incidents (args : SearchArgs) (incidents : List Json) :
    Except String SearchResult :=
  match searchLoop (pyLower (args.query.getD "")) (pyUpper (args.line.getD "")) incidents with
  | Except.error e => Except.error e
  | Except.ok filtered =>
      Except.ok
        { incidents := filtered, count := filtered.length, query := args.query,
          line_filter := args.line, total_incidents := incidents.length }

/-- Well-typedness of one element of a lines sequence: if it is a mapping
with a label field, that label is a string. -/
def wtLineB : Json → Bool
  | Json.obj kvs =>
      match lookupKey kvs "label" with
      | some (Json.str _) => true
      | some _ => false
      | none => true
  | _ => true

/-- The field at k is absent or holds a string. -/
def strOrAbsentB (kvs : List (String × Json)) (k : String) : Bool :=
  match lookupKey kvs k with
  | some (Json.str _) => true
  | some _ => false
  | none => true

/-- The lines field is absent, or is a sequence of well-typed entries. -/
def linesOkB (kvs : List (String × Json)) : Bool :=
  match lookupKey kvs "lines" with
  | none => true
  | some (Json.arr ls) => ls.all wtLineB
  | some _ => false

/-- Well-typed incident record: a mapping whose title and description are
strings or absent and whose lines field, when present, is a sequence of
well-typed entries. -/
def wtInc : Json → Bool
  | Json.obj kvs => strOrAbsentB kvs "title" && strOrAbsentB kvs "description" && linesOkB kvs
  | _ => false

/-- Success test for an Except value. -/
def isOkB {α : Type} : Except String α → Bool
  | Except.ok _ => true
  | Except.error _ => false

/-- Conversion oracle on which every epoch conversion fails with a caught
ValueError or OSError, so the fallback branch is always taken. -/
def conv0 : Int → Except String (Option String) := fun _ => Except.ok none

/-- Conversion oracle on which the conversion raises OverflowError — an
exception outside the caught (ValueError, OSError) — as Python's
fromtimestamp or the millisecond float division does for a large enough
epoch value. -/
def convOverflow : Int → Except String (Option String) := fun _ => Except.error "OverflowError"

/-- The INCIDENT record of the repository's test fixture. -/
def sampleIncident : Json :=
  Json.obj [("type", Json.str "INCIDENT"), ("title", Json.str "U-Bahn Disruption"),
    ("description", Json.str "Signal problems on the U3"),
    ("lines", Json.arr [Json.obj [("label", Json.str "U3")]])]

/-- The INFO record of the repository's test fixture. -/
def sampleInfo : Json :=
  Json.obj [("type", Json.str "INFO"), ("title", Json.str "Construction")]

/-- The upstream payload of the repository's test fixture: a bare list of
one INCIDENT and one INFO record. -/
def samplePayload : Json := Json.arr [sampleIncident, sampleInfo]

theorem charsSub_nil (l : List Char) : charsSub [] l = true := by
  cases l <;> rfl

theorem pyIn_empty (s : String) : pyIn "" s = true :=
  charsSub_nil s.toList

theorem lookup_setKey_ne (kvs : List (String × Json)) (k k' : String) (v : Json)
    (h : k ≠ k') : lookupKey (setKey kvs k' v) k = lookupKey kvs k := by
  induction kvs with
  | nil =>
      simp only [setKey, lookupKey]
      rw [if_neg (fun hh => h hh.symm)]
  | cons p rest ih =>
      obtain ⟨pk, pv⟩ := p
      by_cases hpk : pk = k'
      · subst hpk
        simp only [setKey, if_pos rfl, lookupKey]
        rw [if_neg (fun hh => h hh.symm), if_neg (fun hh => h hh.symm)]
      · simp only [setKey, if_neg hpk, lookupKey]
        by_cases hq : pk = k
        · rw [if_pos hq, if_pos hq]
        · rw [if_neg hq, if_neg hq, ih]

theorem lookup_setKey_self (kvs : List (String × Json)) (k : String) (v : Json) :
    lookupKey (setKey kvs k v) k = some v := by
  induction kvs with
  | nil => simp [setKey, lookupKey]
  | cons p rest ih =>
      obtain ⟨pk, pv⟩ := p
      by_cases hpk : pk = k
      · subst hpk
        simp [setKey, lookupKey]
      · simp [setKey, lookupKey, hpk, ih]

theorem enhanceField_ok_cases (conv : Int → Except String (Option String)) (k kr : String)
    (kvs kvs' : List (String × Json))
    (he : enhanceField conv k kr kvs = Except.ok kvs') :
    kvs' = kvs ∨ ∃ s, kvs' = setKey kvs kr (Json.str s) := by
  unfold enhanceField at he
  split at he
  · split at he
    · split at he
      · exact Except.noConfusion he
      · injection he with h
        exact Or.inr ⟨_, h.symm⟩
    · injection he with h
      exact Or.inl h.symm
  · injection he with h
    exact Or.inl h.symm

theorem lookup_enhanceField_ne (conv : Int → Except String (Option String)) (k kr q : String)
    (kvs kvs' : List (String × Json)) (hq : q ≠ kr)
    (he : enhanceField conv k kr kvs = Except.ok kvs') :
    lookupKey kvs' q = lookupKey kvs q := by
  rcases enhanceField_ok_cases conv k kr kvs kvs' he with h | ⟨s, h⟩
  · rw [h]
  · rw [h, lookup_setKey_ne kvs q kr (Json.str s) hq]

theorem cache_get_set_of_lt (c : MVGCache) (X : List Json) (t now : Nat)
    (h : now < t + c.cache_duration) : (c.set X t).get now = some X := by
  have hn : ¬ (t + c.cache_duration ≤ now) := Nat.not_le.mpr h
  simp [MVGCache.get, MVGCache.set, MVGCache.is_expired, hn]

theorem cache_get_set_of_ge (c : MVGCache) (X : List Json) (t now : Nat)
    (h : t + c.cache_duration ≤ now) : (c.set X t).get now = none := by
  simp [MVGCache.get, MVGCache.set, MVGCache.is_expired, h]

/-- C3: cache lifecycle.  Starting empty (before any set), get returns
no data and status is empty; immediately after set X the data is served
and status is valid; once the clock reaches expires_at = set time plus
cache_duration, get returns no data while status is expired and
cached_items still counts X. -/
theorem cache_lifecycle (m : Nat) (X : List Json) (t0 t1 : Nat)
    (hm : 0 < m) (ht : t0 + 60 * m ≤ t1) :
    (MVGCache.init m).get t0 = none
    ∧ lookupKey ((MVGCache.init m).get_cache_info t0) "status" = some (Json.str "empty")
    ∧ ((MVGCache.init m).set X t0).get t0 = some X
    ∧ lookupKey (((MVGCache.init m).set X t0).get_cache_info t0) "status"
        = some (Json.str "valid")
    ∧ ((MVGCache.init m).set X t0).get t1 = none
    ∧ lookupKey (((MVGCache.init m).set X t0).get_cache_info t1) "status"
        = some (Json.str "expired")
    ∧ lookupKey (((MVGCache.init m).set X t0).get_cache_info t1) "cached_items"
        = some (Json.num (Int.ofNat X.length)) := by
  have hdur : (MVGCache.init m).cache_duration = 60 * m := rfl
  have hpos : t0 < t0 + (MVGCache.init m).cache_duration := by
    rw [hdur]; omega
  have hexp : t0 + (MVGCache.init m).cache_duration ≤ t1 := by
    rw [hdur]; exact ht
  refine ⟨rfl, rfl, cache_get_set_of_lt _ _ _ _ hpos, ?_, cache_get_set_of_ge _ _ _ _ hexp, ?_, rfl⟩
  · have hn : ¬ (t0 + (MVGCache.init m).cache_duration ≤ t0) := Nat.not_le.mpr hpos
    simp [MVGCache.get_cache_info, MVGCache.set, MVGCache.is_expired, MVGCache.init, lookupKey, hn]
    omega
  · simp [MVGCache.get_cache_info, MVGCache.set, MVGCache.is_expired, MVGCache.init, lookupKey, hexp]
    omega

/-- C3 witness at duration 10 minutes, set at time 0, read at 600. -/
theorem cache_lifecycle_witness :
    (MVGCache.init 10).get 0 = none
    ∧ lookupKey ((MVGCache.init 10).get_cache_info 0) "status" = some (Json.str "empty")
    ∧ ((MVGCache.init 10).set [sampleIncident] 0).get 0 = some [sampleIncident]
    ∧ lookupKey (((MVGCache.init 10).set [sampleIncident] 0).get_cache_info 0) "status"
        = some (Json.str "valid")
    ∧ ((MVGCache.init 10).set [sampleIncident] 0).get 600 = none
    ∧ lookupKey (((MVGCache.init 10).set [sampleIncident] 0).get_cache_info 600) "status"
        = some (Json.str "expired")
    ∧ lookupKey (((MVGCache.init 10).set [sampleIncident] 0).get_cache_info 600) "cached_items"
        = some (Json.num (Int.ofNat [sampleIncident].length)) :=
  cache_lifecycle 10 [sampleIncident] 0 600 (by decide) (by decide)

/-- C6 amended: get_cache_info is total and always reports status and
cached_items; the remaining three fields (cached_at, expires_at,
cache_duration_minutes) are present exactly when the cache holds an entry
(valid or expired) and are absent in the empty state. -/
theorem cache_info_fields (c : MVGCache) (now : Nat) :
    (lookupKey (c.get_cache_info now) "status").isSome = true
    ∧ (lookupKey (c.get_cache_info now) "cached_items").isSome = true
    ∧ (c.cached.isSome = true →
        (lookupKey (c.get_cache_info now) "cached_at").isSome = true
        ∧ (lookupKey (c.get_cache_info now) "expires_at").isSome = true
        ∧ (lookupKey (c.get_cache_info now) "cache_duration_minutes").isSome = true)
    ∧ (c.cached = none →
        lookupKey (c.get_cache_info now) "cached_at" = none
        ∧ lookupKey (c.get_cache_info now) "expires_at" = none
        ∧ lookupKey (c.get_cache_info now) "cache_duration_minutes" = none) := by
  obtain ⟨dur, cd⟩ := c
  cases cd with
  | none =>
      exact ⟨rfl, rfl, fun h => by simp at h, fun _ => ⟨rfl, rfl, rfl⟩⟩
  | some d =>
      exact ⟨rfl, rfl, fun _ => ⟨rfl, rfl, rfl⟩, fun h => by simp at h⟩

/-- C6 witness: a populated cache carries all five fields. -/
theorem cache_info_fields_witness :
    (lookupKey (((MVGCache.init 10).set [] 0).get_cache_info 0) "cached_at").isSome = true
    ∧ (lookupKey (((MVGCache.init 10).set [] 0).get_cache_info 0) "expires_at").isSome = true
    ∧ (lookupKey (((MVGCache.init 10).set [] 0).get_cache_info 0) "cache_duration_minutes").isSome
        = true :=
  (cache_info_fields ((MVGCache.init 10).set [] 0) 0).2.2.1 rfl

/-- C6 counterexample: in the empty state the status mapping has no
cached_at field (nor expires_at, nor cache_duration_minutes), refuting
the claim that all five fields are present in every cache state. -/
theorem cache_info_empty_missing_fields_cex :
    lookupKey ((MVGCache.init 10).get_cache_info 0) "cached_at" = none
    ∧ lookupKey ((MVGCache.init 10).get_cache_info 0) "expires_at" = none
    ∧ lookupKey ((MVGCache.init 10).get_cache_info 0) "cache_duration_minutes" = none
    ∧ (MVGCache.init 10).get_cache_info 0
        = [("status", Json.str "empty"), ("cached_items", Json.num 0)] :=
  ⟨rfl, rfl, rfl, rfl⟩

/-- C2: caching policy of get_incidents.  A forced call performs exactly
one fetch, stores the fetched list and returns it; an unforced call with
a valid cache performs zero fetches and returns the cached list whatever
the fetch outcome would have been; an unforced call with an empty or
expired cache performs exactly one fetch, stores and returns the result. -/
theorem get_incidents_cache_policy (c : MVGCache) (now : Nat) (xs d : List Json)
    (f : Except String (List Json)) :
    get_incidents true c now (Except.ok xs) = (Except.ok xs, c.set xs now, 1)
    ∧ (c.get now = some d → get_incidents false c now f = (Except.ok d, c, 0))
    ∧ (c.get now = none →
        get_incidents false c now (Except.ok xs) = (Except.ok xs, c.set xs now, 1)) := by
  refine ⟨rfl, ?_, ?_⟩
  · intro h
    simp [get_incidents, h]
  · intro h
    simp [get_incidents, h]

/-- C2 witness: a valid cache serves without fetching even when the fetch
would fail; empty and forced calls fetch once and store. -/
theorem get_incidents_cache_policy_witness :
    get_incidents true ((MVGCache.init 10).set [] 0) 0 (Except.ok [sampleIncident])
      = (Except.ok [sampleIncident], ((MVGCache.init 10).set [] 0).set [sampleIncident] 0, 1)
    ∧ get_incidents false ((MVGCache.init 10).set [] 0) 0 (Except.error "boom")
        = (Except.ok [], (MVGCache.init 10).set [] 0, 0)
    ∧ get_incidents false (MVGCache.init 10) 0 (Except.ok [sampleIncident])
        = (Except.ok [sampleIncident], (MVGCache.init 10).set [sampleIncident] 0, 1) :=
  ⟨(get_incidents_cache_policy ((MVGCache.init 10).set [] 0) 0 [sampleIncident] []
      (Except.ok [sampleIncident])).1,
   (get_incidents_cache_policy ((MVGCache.init 10).set [] 0) 0 [sampleIncident] []
      (Except.error "boom")).2.1 (cache_get_set_of_lt _ _ _ _ (by decide)),
   (get_incidents_cache_policy (MVGCache.init 10) 0 [sampleIncident] []
      (Except.ok [sampleIncident])).2.2 rfl⟩

/-- C9: whenever get_incidents actually performs the upstream fetch (the
call is forced, or the cache is empty or expired) and that fetch fails,
the error propagates to the caller and the cache is returned exactly as
it was, with no set on the failure path. -/
theorem get_incidents_fetch_failure (force : Bool) (c : MVGCache) (now : Nat) (e : String)
    (h : force = true ∨ c.get now = none) :
    get_incidents force c now (Except.error e) = (Except.error e, c, 1) := by
  cases force with
  | true => rfl
  | false =>
      cases h with
      | inl hf => exact absurd hf (by simp)
      | inr hn => simp [get_incidents, hn]

/-- C9 witness: a failing forced fetch over a populated cache propagates
the error and leaves the entry in place. -/
theorem get_incidents_fetch_failure_witness :
    get_incidents true ((MVGCache.init 10).set [sampleIncident] 0) 5 (Except.error "boom")
      = (Except.error "boom", (MVGCache.init 10).set [sampleIncident] 0, 1) :=
  get_incidents_fetch_failure true ((MVGCache.init 10).set [sampleIncident] 0) 5 "boom"
    (Or.inl rfl)

theorem getStrD_ok (kvs : List (String × Json)) (k : String)
    (h : strOrAbsentB kvs k = true) : ∃ s, getStrD kvs k = Except.ok s := by
  unfold strOrAbsentB at h
  unfold getStrD
  cases hl : lookupKey kvs k with
  | none => exact ⟨"", rfl⟩
  | some v =>
      rw [hl] at h
      cases v with
      | str s => exact ⟨s, rfl⟩
      | null => simp at h
      | bool b => simp at h
      | num n => simp at h
      | arr xs => simp at h
      | obj o => simp at h

theorem labelLoop_ok (f : String → String) (needle : String) (ls : List Json)
    (h : ls.all wtLineB = true) : ∃ b, labelLoop f needle ls = Except.ok b := by
  induction ls with
  | nil => exact ⟨false, rfl⟩
  | cons l ls ih =>
      rw [List.all_cons, Bool.and_eq_true] at h
      obtain ⟨h1, h2⟩ := h
      cases l with
      | obj kvs =>
          unfold labelLoop
          cases hl : lookupKey kvs "label" with
          | none => exact ih h2
          | some v =>
              simp only [wtLineB] at h1
              rw [hl] at h1
              cases v with
              | str s =>
                  by_cases hp : pyIn needle (f s) = true
                  · exact ⟨true, by simp [hp]⟩
                  · obtain ⟨b, hb⟩ := ih h2
                    exact ⟨b, by simp [hp, hb]⟩
              | null => simp at h1
              | bool b => simp at h1
              | num n => simp at h1
              | arr xs => simp at h1
              | obj o => simp at h1
      | null => exact ih h2
      | bool b => exact ih h2
      | num n => exact ih h2
      | str s => exact ih h2
      | arr xs => exact ih h2

theorem lineMatchOf_ok (q : String) (kvs : List (String × Json))
    (h : linesOkB kvs = true) : ∃ b, lineMatchOf q kvs = Except.ok b := by
  unfold linesOkB at h
  unfold lineMatchOf
  cases hl : lookupKey kvs "lines" with
  | none => exact ⟨false, rfl⟩
  | some v =>
      rw [hl] at h
      cases v with
      | arr ls =>
          obtain ⟨b, hb⟩ := labelLoop_ok pyLower q ls h
          exact ⟨b, by simp [pyIter, hb]⟩
      | null => simp at h
      | bool b => simp at h
      | num n => simp at h
      | str s => simp at h
      | obj o => simp at h

theorem lineFilterOf_ok (lf : String) (kvs : List (String × Json))
    (h : linesOkB kvs = true) : ∃ b, lineFilterOf lf kvs = Except.ok b := by
  unfold linesOkB at h
  unfold lineFilterOf
  by_cases he : lf = ""
  · exact ⟨true, by simp [he]⟩
  · rw [if_neg he]
    cases hl : lookupKey kvs "lines" with
    | none => exact ⟨false, rfl⟩
    | some v =>
        rw [hl] at h
        cases v with
        | arr ls =>
            obtain ⟨b, hb⟩ := labelLoop_ok pyUpper lf ls h
            exact ⟨b, by simp [pyIter, hb]⟩
        | null => simp at h
        | bool b => simp at h
        | num n => simp at h
        | str s => simp at h
        | obj o => simp at h

theorem searchOne_ok (q lf : String) (inc : Json) (h : wtInc inc = true) :
    ∃ b, searchOne q lf inc = Except.ok b := by
  cases inc with
  | obj kvs =>
      unfold wtInc at h
      rw [Bool.and_eq_true, Bool.and_eq_true] at h
      obtain ⟨⟨ht, hd⟩, hl⟩ := h
      obtain ⟨t, htt⟩ := getStrD_ok kvs "title" ht
      obtain ⟨d, hdd⟩ := getStrD_ok kvs "description" hd
      obtain ⟨lm, hlm⟩ := lineMatchOf_ok q kvs hl
      obtain ⟨lfm, hlfm⟩ := lineFilterOf_ok lf kvs hl
      exact ⟨(pyIn q (pyLower t) || pyIn q (pyLower d) || lm) && lfm,
        by simp [searchOne, htt, hdd, hlm, hlfm]⟩
  | null => simp [wtInc] at h
  | bool b => simp [wtInc] at h
  | num n => simp [wtInc] at h
  | str s => simp [wtInc] at h
  | arr xs => simp [wtInc] at h

theorem searchLoop_ok (q lf : String) (incs : List Json)
    (h : ∀ i ∈ incs, wtInc i = true) : ∃ l, searchLoop q lf incs = Except.ok l := by
  induction incs with
  | nil => exact ⟨[], rfl⟩
  | cons i is ih =>
      obtain ⟨b, hb⟩ := searchOne_ok q lf i (h i (List.mem_cons_self i is))
      obtain ⟨l, hl⟩ := ih (fun j hj => h j (List.mem_cons_of_mem _ hj))
      exact ⟨if b then i :: l else l, by simp [searchLoop, hb, hl]⟩

theorem searchOne_empty_query (inc : Json) (h : wtInc inc = true) :
    searchOne "" "" inc = Except.ok true := by
  cases inc with
  | obj kvs =>
      unfold wtInc at h
      rw [Bool.and_eq_true, Bool.and_eq_true] at h
      obtain ⟨⟨ht, hd⟩, hl⟩ := h
      obtain ⟨t, htt⟩ := getStrD_ok kvs "title" ht
      obtain ⟨d, hdd⟩ := getStrD_ok kvs "description" hd
      obtain ⟨lm, hlm⟩ := lineMatchOf_ok "" kvs hl
      have hf : lineFilterOf "" kvs = Except.ok true := by simp [lineFilterOf]
      simp [searchOne, htt, hdd, hlm, hf, pyIn_empty]
  | null => simp [wtInc] at h
  | bool b => simp [wtInc] at h
  | num n => simp [wtInc] at h
  | str s => simp [wtInc] at h
  | arr xs => simp [wtInc] at h

theorem searchLoop_empty_query (incs : List Json)
    (h : ∀ i ∈ incs, wtInc i = true) : searchLoop "" "" incs = Except.ok incs := by
  induction incs with
  | nil => rfl
  | cons i is ih =>
      have hi := searchOne_empty_query i (h i (List.mem_cons_self i is))
      have hrest := ih (fun j hj => h j (List.mem_cons_of_mem _ hj))
      simp [searchLoop, hi, hrest]

/-- C1 amended: an absent query is silently replaced by the empty string
and never causes a caller-visible error.  For every argument shape and
every well-typed cached incident set the call succeeds, echoing the raw
query and line arguments and the pre-filter total; moreover the served
incidents with query absent coincide with those for the explicit empty
query, which is what silent defaulting means observably. -/
theorem search_handles_absent_query (args : SearchArgs) (incs : List Json)
    (h : ∀ i ∈ incs, wtInc i = true) :
    (∃ r, search_incidents args incs = Except.ok r
       ∧ r.query = args.query ∧ r.line_filter = args.line
       ∧ r.total_incidents = incs.length ∧ r.count = r.incidents.length)
    ∧ Except.map SearchResult.incidents
        (search_incidents { query := none, line := args.line } incs)
      = Except.map SearchResult.incidents
          (search_incidents { query := some "", line := args.line } incs) := by
  constructor
  · obtain ⟨l, hl⟩ :=
      searchLoop_ok (pyLower (args.query.getD "")) (pyUpper (args.line.getD "")) incs h
    refine ⟨{ incidents := l, count := l.length, query := args.query,
              line_filter := args.line, total_incidents := incs.length }, ?_, rfl, rfl, rfl, rfl⟩
    simp [search_incidents, hl]
  · unfold search_incidents
    simp only [Option.getD_some, Option.getD_none]
    cases hsl : searchLoop (pyLower "") (pyUpper (args.line.getD "")) incs with
    | error e => rfl
    | ok l => rfl

/-- C1 witness at a concrete well-typed incident set and absent query. -/
theorem search_handles_absent_query_witness :
    (∃ r, search_incidents { query := none, line := none } [sampleIncident] = Except.ok r
       ∧ r.query = none ∧ r.line_filter = none
       ∧ r.total_incidents = [sampleIncident].length ∧ r.count = r.incidents.length)
    ∧ Except.map SearchResult.incidents
        (search_incidents { query := none, line := none } [sampleIncident])
      = Except.map SearchResult.incidents
          (search_incidents { query := some "", line := none } [sampleIncident]) :=
  search_handles_absent_query { query := none, line := none } [sampleIncident]
    (by intro i hi; rw [List.mem_singleton] at hi; subst hi; rfl)

/-- C1 counterexample: a call omitting the required query argument does
not fail — it is silently defaulted to the empty string and returns every
incident — refuting that search fails exactly when query is absent. -/
theorem search_absent_query_no_error_cex :
    search_incidents { query := none, line := none } [sampleIncident]
      = Except.ok { incidents := [sampleIncident], count := 1, query := none,
                    line_filter := none, total_incidents := 1 } := rfl

/-- C7 amended: search never throws on incidents whose title and
description are strings or absent and whose lines field, when present, is
a sequence whose mapping-typed entries with a label carry string labels;
in particular an incident with no lines field makes the line-match
condition false and, when a line filter is given, the line-filter
condition false.  Records with differently-typed fields (for example an
integer title) do raise, as the counterexample shows. -/
theorem search_tolerates_missing_fields (q lf : String) (kvs : List (String × Json))
    (h : wtInc (Json.obj kvs) = true) :
    (∃ b, searchOne q lf (Json.obj kvs) = Except.ok b)
    ∧ (lookupKey kvs "lines" = none →
        lineMatchOf q kvs = Except.ok false
        ∧ lineFilterOf lf kvs = Except.ok (if lf = "" then true else false)) := by
  refine ⟨searchOne_ok q lf _ h, fun hn => ⟨?_, ?_⟩⟩
  · simp [lineMatchOf, hn]
  · by_cases he : lf = "" <;> simp [lineFilterOf, hn, he]

/-- C7 witness: an incident with only a string title, no lines field. -/
theorem search_tolerates_missing_fields_witness :
    (∃ b, searchOne "u3" "X" (Json.obj [("title", Json.str "t")]) = Except.ok b)
    ∧ (lineMatchOf "u3" [("title", Json.str "t")] = Except.ok false
       ∧ lineFilterOf "X" [("title", Json.str "t")]
           = Except.ok (if ("X" : String) = "" then true else false)) :=
  ⟨(search_tolerates_missing_fields "u3" "X" [("title", Json.str "t")] rfl).1,
   (search_tolerates_missing_fields "u3" "X" [("title", Json.str "t")] rfl).2 rfl⟩

/-- C7 counterexample: an incident whose title holds the integer 5 makes
the whole search call raise (AttributeError at the .lower() call),
refuting that search never throws for fields of unexpected type. -/
theorem search_nonstring_title_raises_cex :
    search_incidents { query := some "x", line := none }
      [Json.obj [("title", Json.num 5)]] = Except.error "AttributeError" := rfl

/-- C10: with the empty string as query and no line filter, every
well-typed incident satisfies the query-match condition (the empty string
is a substring of every string), so the search returns the entire
incident set and count equals total_incidents. -/
theorem search_empty_query_matches_all (incs : List Json)
    (h : ∀ i ∈ incs, wtInc i = true) :
    search_incidents { query := some "", line := none } incs
      = Except.ok { incidents := incs, count := incs.length, query := some "",
                    line_filter := none, total_incidents := incs.length }
    ∧ ∀ i ∈ incs, searchOne "" "" i = Except.ok true := by
  refine ⟨?_, fun i hi => searchOne_empty_query i (h i hi)⟩
  have hsl := searchLoop_empty_query incs h
  have h1 : pyLower "" = "" := rfl
  have h2 : pyUpper "" = "" := rfl
  simp [search_incidents, h1, h2, hsl]

/-- C10 witness at the fixture incident. -/
theorem search_empty_query_matches_all_witness :
    search_incidents { query := some "", line := none } [sampleIncident]
      = Except.ok { incidents := [sampleIncident], count := [sampleIncident].length,
                    query := some "", line_filter := none,
                    total_incidents := [sampleIncident].length }
    ∧ ∀ i ∈ [sampleIncident], searchOne "" "" i = Except.ok true :=
  search_empty_query_matches_all [sampleIncident]
    (by intro i hi; rw [List.mem_singleton] at hi; subst hi; rfl)

theorem findContainer_eq_findSome (ks : List String) (kvs : List (String × Json)) :
    findContainer ks kvs = List.findSome? (probeKey kvs) ks := by
  induction ks with
  | nil => rfl
  | cons k ks ih =>
      unfold findContainer
      cases hl : lookupKey kvs k with
      | none => simp [List.findSome?, probeKey, hl, ih]
      | some v => cases v <;> simp [List.findSome?, probeKey, hl, ih]

theorem messagesOf_eq_spec (d : Json) : messagesOf d = specCandidates d := by
  cases d with
  | obj kvs =>
      simp only [messagesOf, specCandidates, specContainer, findContainer_eq_findSome]
      cases hc : List.findSome? (probeKey kvs) ["messages", "data", "items", "results"] with
      | some xs => rfl
      | none =>
          cases ht : lookupKey kvs "type" with
          | some v => simp [ht]
          | none => simp [ht]
  | null => rfl
  | bool b => rfl
  | num n => rfl
  | str s => rfl
  | arr xs => rfl

/-- C4: the Normalizer returns exactly the mapping-typed elements of the
spec-described candidate list whose type field equals INCIDENT, in their
original relative order (it is literally the order-preserving filter of
that list), and is total, returning a list — empty for unrecognized
shapes since their candidate list is empty — on every input. -/
theorem normalizer_characterization (d : Json) :
    filter_incidents d = List.filter isIncidentMsg (specCandidates d)
    ∧ List.Sublist (filter_incidents d) (specCandidates d)
    ∧ ∀ x, x ∈ filter_incidents d ↔ (x ∈ specCandidates d ∧ isIncidentMsg x = true) := by
  have he := messagesOf_eq_spec d
  refine ⟨?_, ?_, ?_⟩
  · unfold filter_incidents
    rw [he]
  · unfold filter_incidents
    rw [he]
    exact List.filter_sublist _
  · intro x
    unfold filter_incidents
    rw [he]
    simp [List.mem_filter]

/-- C4 witness at the fixture payload and its INCIDENT element. -/
theorem normalizer_characterization_witness :
    filter_incidents samplePayload = List.filter isIncidentMsg (specCandidates samplePayload)
    ∧ (sampleIncident ∈ filter_incidents samplePayload ↔
        (sampleIncident ∈ specCandidates samplePayload ∧ isIncidentMsg sampleIncident = true)) :=
  ⟨(normalizer_characterization samplePayload).1,
   (normalizer_characterization samplePayload).2.2 sampleIncident⟩

/-- C5: the claim fails on the code.  The source's except clause catches
only (ValueError, OSError); an OverflowError — raised by the millisecond
float division or by fromtimestamp for a large enough epoch such as
10^22 — is outside it and propagates uncaught, so the Enricher does
raise for some integer field values instead of falling back.
convOverflow models the conversion outcome at such a value; the last
conjunct shows the fallback the claim expects, which the code only
delivers for caught failures (conv0). -/
theorem enricher_overflow_raises :
    format_timestamp convOverflow ((10 : Int) ^ 22) = Except.error "OverflowError"
    ∧ enhance_incident_data convOverflow [("publication", Json.num ((10 : Int) ^ 22))]
        = Except.error "OverflowError"
    ∧ format_timestamp conv0 ((10 : Int) ^ 22) = Except.ok (toString ((10 : Int) ^ 22)) :=
  ⟨rfl, rfl, rfl⟩

/-- C8 amended: whenever the Enricher returns a record, that record maps
every key of the input except the three derived readable keys to its
original value; a pre-existing readable key may be overwritten (as the
counterexample shows).  Purity and non-mutation of the input are
intrinsic to the functional embedding: the result is a new value and the
argument is untouched, so two calls on the same input are equal terms. -/
theorem enricher_preserves_other_keys (conv : Int → Except String (Option String))
    (kvs kvs' : List (String × Json)) (k : String)
    (h1 : k ≠ "publication_readable") (h2 : k ≠ "validFrom_readable")
    (h3 : k ≠ "validTo_readable")
    (he : enhance_incident_data conv kvs = Except.ok kvs') :
    lookupKey kvs' k = lookupKey kvs k := by
  unfold enhance_incident_data at he
  split at he
  · exact Except.noConfusion he
  · rename_i k1 e1
    split at he
    · exact Except.noConfusion he
    · rename_i k2 e2
      rw [lookup_enhanceField_ne conv "validTo" "validTo_readable" k k2 kvs' h3 he,
          lookup_enhanceField_ne conv "validFrom" "validFrom_readable" k k1 k2 h2 e2,
          lookup_enhanceField_ne conv "publication" "publication_readable" k kvs k1 h1 e1]

/-- C8 witness: the title key of an enriched record reads back unchanged. -/
theorem enricher_preserves_other_keys_witness :
    lookupKey [("title", Json.str "x"), ("publication", Json.num 5),
               ("publication_readable", Json.str (toString (5 : Int)))] "title"
      = lookupKey [("title", Json.str "x"), ("publication", Json.num 5)] "title" :=
  enricher_preserves_other_keys conv0 [("title", Json.str "x"), ("publication", Json.num 5)]
    [("title", Json.str "x"), ("publication", Json.num 5),
     ("publication_readable", Json.str (toString (5 : Int)))] "title"
    (by decide) (by decide) (by decide) rfl

/-- Incident that already carries a publication_readable field. -/
def overwriteInc : List (String × Json) :=
  [("publication", Json.num 0), ("publication_readable", Json.str "x")]

/-- C8 counterexample: on a record that already holds
publication_readable = "x", enrichment rewrites that key to the derived
value "0", so not every key of the input still maps to its original
value — the added readable field does replace a pre-existing field. -/
theorem enricher_overwrites_readable_cex :
    lookupKey overwriteInc "publication_readable" = some (Json.str "x")
    ∧ enhance_incident_data conv0 overwriteInc
        = Except.ok [("publication", Json.num 0), ("publication_readable", Json.str "0")]
    ∧ (Json.str "x" ≠ Json.str "0") :=
  ⟨rfl, rfl, fun h => by injection h with h'; exact absurd h' (by decide)⟩
